import Mathlib

/-!
Shallow embedding of src/code_execution.py: the SafeCodeExecutor engine
(temp-file allocation, command dispatch, safe execution with output caps
and the timeout protocol) and the CodeInteractionEngine session layer,
together with theorems settling the specification claims about them.

Modelling conventions: Python strings are Lean strings manipulated
through their character data; the filesystem is the list of existing
paths; the child process is outside the program, so its behaviour
(completion, timeout, spawn exception) is an input of type SpawnOutcome;
wall-clock readings are abstract naturals supplied as inputs; every
exception raised by the modelled code is a ValueError, represented by
the raised constructor carrying the message.
-/

/-- Outcome of a Python call: either an exception was raised (all raises
in the modelled code are ValueError, identified by message) or a value
was returned. -/
inductive PyOutcome (α : Type) where
  | raised (msg : String)
  | returned (a : α)
deriving DecidableEq

/-- Minimal model of pathlib.Path as the executor uses it: a parent
directory, a stem and an extension (dot included, empty if none). -/
structure PyPath where
  parent : String
  stem : String
  extension : String
deriving DecidableEq

/-- Path.name: the filename including the extension. -/
def PyPath.name (p : PyPath) : String := p.stem ++ p.extension

/-- Model of str(path): POSIX join of the parent directory and the name. -/
def PyPath.str (p : PyPath) : String := p.parent ++ ("/") ++ p.stem ++ p.extension

/-- Model of path.with_suffix(""): the same path with the extension removed. -/
def PyPath.withSuffixEmpty (p : PyPath) : PyPath := ⟨p.parent, p.stem, ""⟩

/-- ExecutionResult dataclass of src/code_execution.py.  The wall-clock
fields execution_time and timestamp are abstract naturals, and the
environment dict is an association list. -/
structure ExecutionResult where
  success : Bool
  stdout : String
  stderr : String
  exit_code : Int
  execution_time : Nat
  command : String
  working_directory : String
  timestamp : Nat
  environment : List (String × String)
deriving DecidableEq

/-- SafeCodeExecutor.default_timeout: 30 seconds. -/
def default_timeout : Nat := 30

/-- SafeCodeExecutor.max_output_size: 1024 * 1024 (1MB). -/
def max_output_size : Nat := 1024 * 1024

/-- SafeCodeExecutor.allowed_commands, the fixed allow-list of
executable names. -/
def allowed_commands : List String :=
  ["python", "python3", "node", "npm", "pip", "pip3",
   "gcc", "g++", "javac", "java", "go", "cargo",
   "make", "cmake", "docker", "git"]

/-- Python len of a string: its number of characters. -/
def pyLen (s : String) : Nat := s.data.length

/-- Python slice s[:n]. -/
def pyTake (n : Nat) (s : String) : String := ⟨s.data.take n⟩

/-- Python str.lower, modelled characterwise. -/
def pyLower (s : String) : String := ⟨s.data.map Char.toLower⟩

/-- Extension table of SafeCodeExecutor._create_temp_file. -/
def extensions : List (String × String) :=
  [("python", ".py"), ("javascript", ".js"), ("typescript", ".ts"),
   ("java", ".java"), ("cpp", ".cpp"), ("c", ".c"),
   ("go", ".go"), ("rust", ".rs"), ("shell", ".sh")]

/-- Model of extensions.get(language.lower(), ".txt"). -/
def getExtension (language : String) : String :=
  ((extensions.lookup (pyLower language)).getD (".txt"))

/-- Unique id for temp file names, from int(time.time()) and
random.randint(1000, 9999). -/
def uniqueId (t r : Nat) : String := toString t ++ ("_") ++ toString r

/-- Candidate temp file for retry counter k: counter 0 is the initial
name code_uid followed by the extension; a positive counter k appends an
underscore and k before the extension. -/
def tempCand (temp_dir uid ext : String) (k : Nat) : PyPath :=
  if k = 0 then ⟨temp_dir, ("code_") ++ uid, ext⟩
  else ⟨temp_dir, ("code_") ++ uid ++ ("_") ++ toString k, ext⟩

/-- Collision loop of SafeCodeExecutor._create_temp_file: while the
candidate exists and counter is below 100, step to the next candidate.
The fuel argument equals 100 minus counter, so the source guard
counter below 100 is exactly fuel positive; fs is the set of paths that
exist on disk. -/
def tempLoop (fs : List String) (cand : Nat → PyPath) (counter : Nat) (tf : PyPath) :
    Nat → PyPath
  | 0 => tf
  | fuel + 1 =>
    if tf.str ∈ fs then tempLoop fs cand (counter + 1) (cand (counter + 1)) fuel else tf

/-- Temp file path chosen by SafeCodeExecutor._create_temp_file given the
existing paths fs, the workspace directory, the language and the clock
and randomness inputs t and r.  The source then opens this path for
writing unconditionally, so the choice of name is the whole story. -/
def create_temp_file_path (fs : List String) (workspace_dir language : String)
    (t r : Nat) : PyPath :=
  let extension := getExtension language
  let temp_dir := workspace_dir ++ ("/temp")
  let cand := tempCand temp_dir (uniqueId t r) extension
  tempLoop fs cand 0 (cand 0) 100

/-- SafeCodeExecutor._get_java_command. -/
def get_java_command (file_path : PyPath) : List String :=
  ["java", "-cp", file_path.parent, file_path.stem]

/-- SafeCodeExecutor._get_cpp_command: compile and run parts joined by a
literal two-ampersand token inside one argv list. -/
def get_cpp_command (file_path : PyPath) : List String :=
  let executable := file_path.withSuffixEmpty
  ["g++", "-o", executable.str, file_path.str, "&&", executable.str]

/-- SafeCodeExecutor._get_c_command. -/
def get_c_command (file_path : PyPath) : List String :=
  let executable := file_path.withSuffixEmpty
  ["gcc", "-o", executable.str, file_path.str, "&&", executable.str]

/-- SafeCodeExecutor._get_rust_command. -/
def get_rust_command (file_path : PyPath) : List String :=
  ["rustc", file_path.str, "-o", file_path.withSuffixEmpty.str, "&&",
   file_path.withSuffixEmpty.str]

/-- Command dict built inside SafeCodeExecutor._get_execution_command. -/
def commandTable (file_path : PyPath) (use_filename_only : Bool) :
    List (String × List String) :=
  let file_ref := if use_filename_only then file_path.name else file_path.str
  [("python", ["python3", file_ref]),
   ("javascript", ["node", file_ref]),
   ("typescript", ["npx", "ts-node", file_ref]),
   ("java", get_java_command file_path),
   ("cpp", get_cpp_command file_path),
   ("c", get_c_command file_path),
   ("go", ["go", "run", file_ref]),
   ("rust", get_rust_command file_path),
   ("shell", ["bash", file_ref])]

/-- SafeCodeExecutor._get_execution_command: look the lowered language up
in the command dict, raise for an unknown language, then check the first
element of the command against the allow-list.  The empty-command branch
mirrors the IndexError Python would raise; no table entry is empty. -/
def get_execution_command (file_path : PyPath) (language : String)
    (use_filename_only : Bool) : PyOutcome (List String) :=
  match (commandTable file_path use_filename_only).lookup (pyLower language) with
  | none => .raised (("Unsupported language: ") ++ language)
  | some command =>
    match command with
    | [] => .raised ("list index out of range")
    | c0 :: _ =>
      if c0 ∈ allowed_commands then .returned command
      else .raised (("Command not allowed: ") ++ c0)

/-- Behaviour of the spawned child process, which is outside the program:
the create_subprocess_exec call raises, or communicate finishes in time
with a return code and raw outputs, or the timeout fires (in which case
the flag records whether the terminated process exits within the 5 s
grace wait). -/
inductive SpawnOutcome where
  | spawnError (msg : String)
  | completed (returncode : Int) (stdoutRaw stderrRaw : String)
  | timedOut (exitsWithinGrace : Bool)
deriving DecidableEq

/-- Observable engine actions in order of occurrence.  spawnExec records
the exact argv list handed to asyncio.create_subprocess_exec together
with its cwd; the argv is passed to an exec-style spawn, not to a shell.
fileWrite, chmod and fileDelete are the temp-file operations performed
by execute_code. -/
inductive EngineAction where
  | spawnExec (argv : List String) (cwd : String)
  | terminate
  | waitGrace (seconds : Nat)
  | kill
  | fileWrite (path content : String)
  | chmod (path : String)
  | fileDelete (path : String)
deriving DecidableEq

/-- Truncation marker the source appends to capped stdout. -/
def stdoutTruncMarker : String := "\n... [Output truncated]"

/-- Truncation marker the source appends to capped stderr. -/
def stderrTruncMarker : String := "\n... [Error output truncated]"

/-- Output capping in SafeCodeExecutor._safe_execute: if len(s) exceeds
maxSize, keep the first maxSize characters and append the marker. -/
def limitOutput (maxSize : Nat) (marker : String) (s : String) : String :=
  if maxSize < pyLen s then pyTake maxSize s ++ marker else s

/-- SafeCodeExecutor._safe_execute: builds the ExecutionResult for each of
the three outcomes (normal completion, timeout, spawn exception) and
records the actions performed.  elapsed and now stand for the wall-clock
readings time.time() minus start_time and datetime.now().  On timeout the
source terminates, waits up to 5 s, and kills only if the process is
still alive; all three paths return a result rather than raising. -/
def safe_execute (maxOutputSize : Nat) (command : List String) (working_dir : String)
    (timeout : Nat) (environment : List (String × String)) (elapsed now : Nat)
    (outcome : SpawnOutcome) : ExecutionResult × List EngineAction :=
  match outcome with
  | .completed returncode stdoutRaw stderrRaw =>
    ({ success := decide (returncode = 0)
       stdout := limitOutput maxOutputSize stdoutTruncMarker stdoutRaw
       stderr := limitOutput maxOutputSize stderrTruncMarker stderrRaw
       exit_code := returncode
       execution_time := elapsed
       command := String.intercalate (" ") command
       working_directory := working_dir
       timestamp := now
       environment := environment },
     [EngineAction.spawnExec command working_dir])
  | .timedOut exitsWithinGrace =>
    ({ success := false
       stdout := ""
       stderr := ("Execution timed out after ") ++ toString timeout ++ (" seconds")
       exit_code := -1
       execution_time := elapsed
       command := String.intercalate (" ") command
       working_directory := working_dir
       timestamp := now
       environment := environment },
     [EngineAction.spawnExec command working_dir, EngineAction.terminate, EngineAction.waitGrace 5] ++
       (if exitsWithinGrace then [] else [EngineAction.kill]))
  | .spawnError msg =>
    ({ success := false
       stdout := ""
       stderr := ("Execution error: ") ++ msg
       exit_code := -2
       execution_time := elapsed
       command := String.intercalate (" ") command
       working_directory := working_dir
       timestamp := now
       environment := environment },
     [EngineAction.spawnExec command working_dir])

/-- Existing-path set after open(p, "w"): the path now exists. -/
def writePath (fs : List String) (p : String) : List String :=
  if p ∈ fs then fs else p :: fs

/-- Existing-path set after p.unlink(): the path no longer exists. -/
def removePath (fs : List String) (p : String) : List String :=
  fs.filter (fun q => q ≠ p)

/-- SafeCodeExecutor.execute_code: materialize the temp file, resolve the
command with use_filename_only true, run _safe_execute with the temp
file parent directory as cwd, append the result to history, and in the
finally block delete the temp file if it exists — on every exit path,
whether the body returned or raised.  Returns the call outcome, the
filesystem afterwards, the action trace, and the history afterwards.
The working_dir argument is resolved exactly as in the source, which
then never uses the resolved value. -/
def execute_code (fs : List String) (history : List ExecutionResult)
    (workspace_dir code language : String) (timeoutArg : Option Nat)
    (working_dir : Option String) (environment : List (String × String))
    (t r elapsed now : Nat) (outcome : SpawnOutcome) :
    PyOutcome ExecutionResult × List String × List EngineAction × List ExecutionResult :=
  let timeout := timeoutArg.getD default_timeout
  let _execution_working_dir := working_dir.getD workspace_dir
  let temp_file := create_temp_file_path fs workspace_dir language t r
  let fs1 := writePath fs temp_file.str
  let acts0 := [EngineAction.fileWrite temp_file.str code] ++
    (if pyLower language = "shell" then [EngineAction.chmod temp_file.str] else [])
  let step :=
    match get_execution_command temp_file language true with
    | .raised msg => (PyOutcome.raised msg, ([] : List EngineAction), history)
    | .returned command =>
      let ra := safe_execute max_output_size command temp_file.parent timeout
        environment elapsed now outcome
      (PyOutcome.returned ra.1, ra.2, history ++ [ra.1])
  let fs2 := if temp_file.str ∈ fs1 then removePath fs1 temp_file.str else fs1
  let cleanupActs :=
    if temp_file.str ∈ fs1 then [EngineAction.fileDelete temp_file.str] else []
  (step.1, fs2, acts0 ++ step.2.1 ++ cleanupActs, step.2.2)

/-- Interactive session state created by
CodeInteractionEngine.start_interactive_session. -/
structure Session where
  session_id : String
  language : String
  created_at : Nat
  execution_history : List ExecutionResult
  variablesDict : List (String × String)
  working_directory : String
deriving DecidableEq

/-- Shape of the dictionary CodeInteractionEngine.get_session_info
returns: either the error dictionary or the info dictionary. -/
inductive SessionInfo where
  | errorDict (error : String)
  | infoDict (session_id language : String) (created_at executions_count : Nat)
      (last_execution : Option ExecutionResult)
deriving DecidableEq

/-- CodeInteractionEngine.execute_in_session: raises ValueError with
message Session not found for an unknown id, otherwise delegates to
execute_code with the session language and working directory and the
executor defaults for timeout and environment. -/
def execute_in_session (sessions : List (String × Session)) (session_id code : String)
    (fs : List String) (history : List ExecutionResult) (workspace_dir : String)
    (t r elapsed now : Nat) (outcome : SpawnOutcome) : PyOutcome ExecutionResult :=
  match sessions.lookup session_id with
  | none => .raised (("Session not found: ") ++ session_id)
  | some session =>
    (execute_code fs history workspace_dir code session.language none
      (some session.working_directory) [] t r elapsed now outcome).1

/-- CodeInteractionEngine.get_session_info: returns the error dictionary
for an unknown id (it does not raise), otherwise the info dictionary
with the execution count and last execution derived from the session
history. -/
def get_session_info (sessions : List (String × Session)) (session_id : String) :
    PyOutcome SessionInfo :=
  match sessions.lookup session_id with
  | none => .returned (.errorDict ("Session not found"))
  | some session =>
    .returned (.infoDict session_id session.language session.created_at
      session.execution_history.length session.execution_history.getLast?)

/-- Appending strings concatenates their character data. -/
theorem strData_append (s t : String) : (s ++ t).data = s.data ++ t.data := by
  cases s
  cases t
  rfl

/-- A path just written is among the existing paths. -/
theorem mem_writePath_self (fs : List String) (p : String) : p ∈ writePath fs p := by
  unfold writePath
  split
  · assumption
  · exact List.mem_cons_self p fs

/-- A removed path is no longer among the existing paths. -/
theorem not_mem_removePath (fs : List String) (p : String) : p ∉ removePath fs p := by
  unfold removePath
  intro h
  simpa using (List.mem_filter.1 h).2

/-- When every candidate from counter onwards is taken, the collision
loop runs out of fuel and lands on the candidate at counter plus fuel. -/
theorem tempLoop_exhausted (fs : List String) (cand : Nat → PyPath) (fuel : Nat) :
    ∀ counter, (∀ k, k ≤ counter + fuel → (cand k).str ∈ fs) →
      tempLoop fs cand counter (cand counter) fuel = cand (counter + fuel) := by
  induction fuel with
  | zero =>
    intro counter h
    simp [tempLoop]
  | succ fuel ih =>
    intro counter h
    have hmem : (cand counter).str ∈ fs := h counter (by omega)
    have hstep : tempLoop fs cand counter (cand counter) (fuel + 1) =
        tempLoop fs cand (counter + 1) (cand (counter + 1)) fuel := by
      simp [tempLoop, hmem]
    rw [hstep, ih (counter + 1) (fun k hk => h k (by omega))]
    congr 1
    omega

/-- A suffix of an append that is no longer than the right part is a
suffix of the right part alone. -/
theorem suffix_shift {α : Type} {s x m : List α} (h : s <:+ x ++ m)
    (hl : s.length ≤ m.length) : s <:+ m := by
  obtain ⟨t, ht⟩ := h
  have hlen : t.length + s.length = x.length + m.length := by
    simpa using congrArg List.length ht
  have hx : x.length ≤ t.length := by omega
  have h2 : (t ++ s).drop x.length = t.drop x.length ++ s :=
    List.drop_append_of_le_length hx
  rw [ht] at h2
  have h3 : (x ++ m).drop x.length = m := by simp
  rw [h3] at h2
  exact ⟨t.drop x.length, h2.symm⟩

/-- C1: for every execution request whose command resolution succeeded,
a spawn-level exception is not propagated: execute_code returns an
ExecutionResult with success false, exit_code -2 and stderr carrying the
exception text. -/
theorem C1_spawn_error_returned_as_data
    (fs : List String) (history : List ExecutionResult)
    (workspace_dir code language : String) (timeoutArg : Option Nat)
    (working_dir : Option String) (environment : List (String × String))
    (t r elapsed now : Nat) (msg : String) (cmd : List String)
    (h : get_execution_command (create_temp_file_path fs workspace_dir language t r)
        language true = .returned cmd) :
    (execute_code fs history workspace_dir code language timeoutArg working_dir
        environment t r elapsed now (.spawnError msg)).1 =
      .returned
        { success := false
          stdout := ""
          stderr := ("Execution error: ") ++ msg
          exit_code := -2
          execution_time := elapsed
          command := String.intercalate (" ") cmd
          working_directory := (create_temp_file_path fs workspace_dir language t r).parent
          timestamp := now
          environment := environment } := by
  simp only [execute_code]
  rw [h]
  rfl

/-- C1 witness: a concrete python request whose resolution succeeds and
whose spawn raises gives exactly the minus-two result. -/
theorem C1_spawn_error_returned_as_data_witness :
    (get_execution_command
        (create_temp_file_path [] ("./code_workspace") ("python") 1700000000 1234)
        ("python") true = .returned ["python3", "code_1700000000_1234.py"]) ∧
    (execute_code [] [] ("./code_workspace") ("print(1)") ("python") none none []
        1700000000 1234 3 99 (.spawnError ("No such file or directory"))).1 =
      .returned
        { success := false
          stdout := ""
          stderr := ("Execution error: ") ++ ("No such file or directory")
          exit_code := -2
          execution_time := 3
          command := String.intercalate (" ") ["python3", "code_1700000000_1234.py"]
          working_directory :=
            (create_temp_file_path [] ("./code_workspace") ("python") 1700000000 1234).parent
          timestamp := 99
          environment := [] } :=
  ⟨by decide,
   C1_spawn_error_returned_as_data [] [] ("./code_workspace") ("print(1)") ("python")
     none none [] 1700000000 1234 3 99 ("No such file or directory")
     ["python3", "code_1700000000_1234.py"] (by decide)⟩

/-- C2: on timeout, _safe_execute terminates the process, waits up to
5 seconds, kills only if it is still alive, and returns success false,
exit_code -1, with stderr stating the execution timed out after N
seconds; in particular stderr contains the text timed out after N. -/
theorem C2_timeout_protocol_and_result
    (maxOutputSize : Nat) (command : List String) (working_dir : String)
    (timeout : Nat) (environment : List (String × String)) (elapsed now : Nat)
    (exitsWithinGrace : Bool) :
    ((safe_execute maxOutputSize command working_dir timeout environment elapsed now
        (.timedOut exitsWithinGrace)).1.success = false) ∧
    ((safe_execute maxOutputSize command working_dir timeout environment elapsed now
        (.timedOut exitsWithinGrace)).1.exit_code = -1) ∧
    ((safe_execute maxOutputSize command working_dir timeout environment elapsed now
        (.timedOut exitsWithinGrace)).1.stderr =
      ("Execution timed out after ") ++ toString timeout ++ (" seconds")) ∧
    ((("timed out after ") ++ toString timeout).data <:+:
      ((safe_execute maxOutputSize command working_dir timeout environment elapsed now
        (.timedOut exitsWithinGrace)).1.stderr).data) ∧
    ((safe_execute maxOutputSize command working_dir timeout environment elapsed now
        (.timedOut exitsWithinGrace)).2 =
      [EngineAction.spawnExec command working_dir, EngineAction.terminate,
       EngineAction.waitGrace 5] ++
        (if exitsWithinGrace then [] else [EngineAction.kill])) := by
  refine ⟨rfl, rfl, rfl, ?_, rfl⟩
  show (("timed out after ") ++ toString timeout).data <:+:
    (("Execution timed out after ") ++ toString timeout ++ (" seconds")).data
  refine ⟨("Execution ").data, (" seconds").data, ?_⟩
  rw [strData_append, strData_append, strData_append]
  have hsplit : ("Execution timed out after ").data =
      ("Execution ").data ++ ("timed out after ").data := by decide
  rw [hsplit]
  simp

/-- C3: the temp file materialized for a call of execute_code does not
exist any more once the call is over, on every exit path (normal result
or raised resolution error). -/
theorem C3_temp_file_deleted_on_every_exit_path
    (fs : List String) (history : List ExecutionResult)
    (workspace_dir code language : String) (timeoutArg : Option Nat)
    (working_dir : Option String) (environment : List (String × String))
    (t r elapsed now : Nat) (outcome : SpawnOutcome) :
    (create_temp_file_path fs workspace_dir language t r).str ∉
      (execute_code fs history workspace_dir code language timeoutArg working_dir
        environment t r elapsed now outcome).2.1 := by
  simp only [execute_code]
  split
  · exact not_mem_removePath _ _
  · intro hmem
    exact (by assumption : ¬_) hmem

/-- C10: every ExecutionResult built by _safe_execute satisfies success
equals exit_code is zero: completed runs copy the return code, timeouts
carry -1, spawn failures carry -2, and success is true exactly when the
exit code is zero. -/
theorem C10_success_iff_exit_code_zero
    (maxOutputSize : Nat) (command : List String) (working_dir : String)
    (timeout : Nat) (environment : List (String × String)) (elapsed now : Nat)
    (outcome : SpawnOutcome) (rc : Int) (o e msg : String) (g : Bool) :
    (((safe_execute maxOutputSize command working_dir timeout environment elapsed now
        outcome).1.success = true) ↔
      ((safe_execute maxOutputSize command working_dir timeout environment elapsed now
        outcome).1.exit_code = 0)) ∧
    ((safe_execute maxOutputSize command working_dir timeout environment elapsed now
        (.completed rc o e)).1.success = decide (rc = 0)) ∧
    ((safe_execute maxOutputSize command working_dir timeout environment elapsed now
        (.completed rc o e)).1.exit_code = rc) ∧
    ((safe_execute maxOutputSize command working_dir timeout environment elapsed now
        (.timedOut g)).1.success = false) ∧
    ((safe_execute maxOutputSize command working_dir timeout environment elapsed now
        (.timedOut g)).1.exit_code = -1) ∧
    ((safe_execute maxOutputSize command working_dir timeout environment elapsed now
        (.spawnError msg)).1.success = false) ∧
    ((safe_execute maxOutputSize command working_dir timeout environment elapsed now
        (.spawnError msg)).1.exit_code = -2) := by
  refine ⟨?_, rfl, rfl, rfl, rfl, rfl, rfl⟩
  cases outcome <;> simp [safe_execute]

/-- Candidate family for the concrete exhaustion scenario of claim C4: a
python request at epoch 1700000000 with random suffix 1234. -/
def c4cand (k : Nat) : PyPath :=
  tempCand (("./code_workspace") ++ ("/temp")) (uniqueId 1700000000 1234)
    (getExtension ("python")) k

/-- Filesystem in which all 101 candidate names already exist. -/
def c4fs : List String := (List.range 101).map (fun k => (c4cand k).str)

/-- C4 counterexample: with every candidate name already existing,
temp-file allocation does not fail with any error; it returns the final
candidate, a path that already exists, so both the claimed
ResourceExhausted failure and the never-reuse guarantee fail on the
code (the returned path is then opened for writing, overwriting it). -/
theorem C4_counterexample :
    (create_temp_file_path c4fs ("./code_workspace") ("python") 1700000000 1234).str
      ∈ c4fs := by
  have key : create_temp_file_path c4fs ("./code_workspace") ("python") 1700000000 1234 =
      c4cand 100 := by
    show tempLoop c4fs c4cand 0 (c4cand 0) 100 = c4cand 100
    simpa using tempLoop_exhausted c4fs c4cand 100 0
      (fun k hk => List.mem_map.2 ⟨k, List.mem_range.2 (by omega), rfl⟩)
  rw [key]
  exact List.mem_map.2 ⟨100, List.mem_range.2 (by omega), rfl⟩

/-- C4 amended: allocation derives its candidate from epoch seconds and
a random four-digit suffix and, on collision, appends an incrementing
counter for at most 100 retries; but when every candidate exists it does
not fail with any error: it settles on the final candidate even though
that path exists, reusing (and subsequently overwriting) it. -/
theorem C4_collision_retry_bounded_then_reuses
    (fs : List String) (workspace_dir language : String) (t r : Nat)
    (h : ∀ k, k ≤ 100 →
      (tempCand (workspace_dir ++ ("/temp")) (uniqueId t r)
        (getExtension language) k).str ∈ fs) :
    create_temp_file_path fs workspace_dir language t r =
      tempCand (workspace_dir ++ ("/temp")) (uniqueId t r) (getExtension language) 100 ∧
    (tempCand (workspace_dir ++ ("/temp")) (uniqueId t r)
      (getExtension language) 100).str ∈ fs := by
  constructor
  · show tempLoop fs
        (tempCand (workspace_dir ++ ("/temp")) (uniqueId t r) (getExtension language)) 0
        (tempCand (workspace_dir ++ ("/temp")) (uniqueId t r) (getExtension language) 0)
        100 = _
    simpa using tempLoop_exhausted fs
      (tempCand (workspace_dir ++ ("/temp")) (uniqueId t r) (getExtension language)) 100 0
      (fun k hk => h k (by omega))
  · exact h 100 (by omega)

/-- C4 witness: the amended behaviour at the concrete exhausted
filesystem. -/
theorem C4_collision_retry_bounded_then_reuses_witness :
    (∀ k, k ≤ 100 →
      (tempCand (("./code_workspace") ++ ("/temp")) (uniqueId 1700000000 1234)
        (getExtension ("python")) k).str ∈ c4fs) ∧
    (create_temp_file_path c4fs ("./code_workspace") ("python") 1700000000 1234 =
      tempCand (("./code_workspace") ++ ("/temp")) (uniqueId 1700000000 1234)
        (getExtension ("python")) 100 ∧
     (tempCand (("./code_workspace") ++ ("/temp")) (uniqueId 1700000000 1234)
        (getExtension ("python")) 100).str ∈ c4fs) :=
  have hyp : ∀ k, k ≤ 100 →
      (tempCand (("./code_workspace") ++ ("/temp")) (uniqueId 1700000000 1234)
        (getExtension ("python")) k).str ∈ c4fs :=
    fun k hk => List.mem_map.2 ⟨k, List.mem_range.2 (by omega), rfl⟩
  ⟨hyp, C4_collision_retry_bounded_then_reuses c4fs ("./code_workspace") ("python")
    1700000000 1234 hyp⟩

/-- Helper: when command resolution raises, the execute_code action trace
contains no spawn at all. -/
theorem spawnFree_of_resolution_raised
    (fs : List String) (history : List ExecutionResult)
    (workspace_dir code language : String) (timeoutArg : Option Nat)
    (working_dir : Option String) (environment : List (String × String))
    (t r elapsed now : Nat) (outcome : SpawnOutcome) (msg : String)
    (h : get_execution_command (create_temp_file_path fs workspace_dir language t r)
        language true = .raised msg) :
    ∀ argv cwd, EngineAction.spawnExec argv cwd ∉
      (execute_code fs history workspace_dir code language timeoutArg working_dir
        environment t r elapsed now outcome).2.2.1 := by
  intro argv cwd hmem
  simp only [execute_code] at hmem
  rw [h] at hmem
  by_cases hsh : pyLower language = "shell"
  · rw [if_pos hsh, if_pos (mem_writePath_self fs
      (create_temp_file_path fs workspace_dir language t r).str)] at hmem
    simp at hmem
  · rw [if_neg hsh, if_pos (mem_writePath_self fs
      (create_temp_file_path fs workspace_dir language t r).str)] at hmem
    simp at hmem

/-- C5: typescript, rust and shell are present in the command table, but
their resolved argv heads (npx, rustc, bash) are outside the fixed
allow-list; execute_code therefore raises Command not allowed for each
of them and never spawns a process. -/
theorem C5_table_languages_blocked_by_allowlist
    (fs : List String) (history : List ExecutionResult)
    (workspace_dir code : String) (timeoutArg : Option Nat)
    (working_dir : Option String) (environment : List (String × String))
    (t r elapsed now : Nat) (outcome : SpawnOutcome) :
    (((commandTable (create_temp_file_path fs workspace_dir ("typescript") t r) true).lookup
        ("typescript") =
      some ["npx", "ts-node",
        (create_temp_file_path fs workspace_dir ("typescript") t r).name]) ∧
     ((execute_code fs history workspace_dir code ("typescript") timeoutArg working_dir
        environment t r elapsed now outcome).1 =
       .raised ("Command not allowed: npx")) ∧
     (∀ argv cwd, EngineAction.spawnExec argv cwd ∉
       (execute_code fs history workspace_dir code ("typescript") timeoutArg working_dir
        environment t r elapsed now outcome).2.2.1)) ∧
    (((commandTable (create_temp_file_path fs workspace_dir ("rust") t r) true).lookup
        ("rust") =
      some (get_rust_command (create_temp_file_path fs workspace_dir ("rust") t r))) ∧
     ((execute_code fs history workspace_dir code ("rust") timeoutArg working_dir
        environment t r elapsed now outcome).1 =
       .raised ("Command not allowed: rustc")) ∧
     (∀ argv cwd, EngineAction.spawnExec argv cwd ∉
       (execute_code fs history workspace_dir code ("rust") timeoutArg working_dir
        environment t r elapsed now outcome).2.2.1)) ∧
    (((commandTable (create_temp_file_path fs workspace_dir ("shell") t r) true).lookup
        ("shell") =
      some ["bash", (create_temp_file_path fs workspace_dir ("shell") t r).name]) ∧
     ((execute_code fs history workspace_dir code ("shell") timeoutArg working_dir
        environment t r elapsed now outcome).1 =
       .raised ("Command not allowed: bash")) ∧
     (∀ argv cwd, EngineAction.spawnExec argv cwd ∉
       (execute_code fs history workspace_dir code ("shell") timeoutArg working_dir
        environment t r elapsed now outcome).2.2.1)) :=
  ⟨⟨rfl, rfl,
    spawnFree_of_resolution_raised fs history workspace_dir code ("typescript") timeoutArg
      working_dir environment t r elapsed now outcome ("Command not allowed: npx") rfl⟩,
   ⟨rfl, rfl,
    spawnFree_of_resolution_raised fs history workspace_dir code ("rust") timeoutArg
      working_dir environment t r elapsed now outcome ("Command not allowed: rustc") rfl⟩,
   ⟨rfl, rfl,
    spawnFree_of_resolution_raised fs history workspace_dir code ("shell") timeoutArg
      working_dir environment t r elapsed now outcome ("Command not allowed: bash") rfl⟩⟩

/-- C7 amended: an unknown language raises Unsupported language before
any process spawn, but only after the temp code file has been written;
the action trace is exactly one file write followed by the cleanup
delete, with no spawn. -/
theorem C7_unsupported_language_after_file_io
    (fs : List String) (history : List ExecutionResult)
    (workspace_dir code : String) (timeoutArg : Option Nat)
    (working_dir : Option String) (environment : List (String × String))
    (t r elapsed now : Nat) (outcome : SpawnOutcome) :
    ((execute_code fs history workspace_dir code ("cobol") timeoutArg working_dir
        environment t r elapsed now outcome).1 =
      .raised ("Unsupported language: cobol")) ∧
    ((execute_code fs history workspace_dir code ("cobol") timeoutArg working_dir
        environment t r elapsed now outcome).2.2.1 =
      [EngineAction.fileWrite
         (create_temp_file_path fs workspace_dir ("cobol") t r).str code,
       EngineAction.fileDelete
         (create_temp_file_path fs workspace_dir ("cobol") t r).str]) ∧
    (∀ argv cwd, EngineAction.spawnExec argv cwd ∉
      (execute_code fs history workspace_dir code ("cobol") timeoutArg working_dir
        environment t r elapsed now outcome).2.2.1) := by
  refine ⟨rfl, ?_,
    spawnFree_of_resolution_raised fs history workspace_dir code ("cobol") timeoutArg
      working_dir environment t r elapsed now outcome ("Unsupported language: cobol") rfl⟩
  have hres : get_execution_command (create_temp_file_path fs workspace_dir ("cobol") t r)
      ("cobol") true = PyOutcome.raised ("Unsupported language: cobol") := rfl
  simp only [execute_code]
  rw [hres, if_neg (show ¬ pyLower ("cobol") = "shell" by decide),
    if_pos (mem_writePath_self fs (create_temp_file_path fs workspace_dir ("cobol") t r).str)]
  rfl

/-- C7 counterexample: the claim that no file I/O happens before the
UnsupportedLanguage failure is false — for a concrete cobol request the
trace contains the temp-file write. -/
theorem C7_counterexample :
    EngineAction.fileWrite ("./code_workspace/temp/code_1700000000_1234.txt") ("print(1)") ∈
      (execute_code [] [] ("./code_workspace") ("print(1)") ("cobol") none none []
        1700000000 1234 0 0 (.spawnError ("unused"))).2.2.1 := by
  decide

/-- Oversized stdout sample for the output-cap claims. -/
def bigOut : String := ⟨List.replicate (max_output_size + 1) 'a'⟩

/-- Oversized stderr sample for the output-cap claims. -/
def bigErr : String := ⟨List.replicate (max_output_size + 2) 'b'⟩

/-- C6 amended: stdout and stderr are independently truncated on the
decoded string at the 1MB cap; whenever a stream exceeds the cap —
regardless of the other stream — that stream equals its first cap
characters followed by its own marker (a newline then
... [Output truncated] for stdout, a newline then
... [Error output truncated] for stderr), so its length is exactly the
cap plus the marker length and it ends in that marker. -/
theorem C6_output_caps_with_actual_markers
    (command : List String) (working_dir : String) (timeout : Nat)
    (environment : List (String × String)) (elapsed now : Nat) (rc : Int)
    (out err : String) :
    (max_output_size < pyLen out →
      ((safe_execute max_output_size command working_dir timeout environment elapsed now
          (.completed rc out err)).1.stdout =
        pyTake max_output_size out ++ stdoutTruncMarker) ∧
      (pyLen (safe_execute max_output_size command working_dir timeout environment elapsed now
          (.completed rc out err)).1.stdout =
        max_output_size + pyLen stdoutTruncMarker) ∧
      (stdoutTruncMarker.data <:+
        ((safe_execute max_output_size command working_dir timeout environment elapsed now
          (.completed rc out err)).1.stdout).data)) ∧
    (max_output_size < pyLen err →
      ((safe_execute max_output_size command working_dir timeout environment elapsed now
          (.completed rc out err)).1.stderr =
        pyTake max_output_size err ++ stderrTruncMarker) ∧
      (pyLen (safe_execute max_output_size command working_dir timeout environment elapsed now
          (.completed rc out err)).1.stderr =
        max_output_size + pyLen stderrTruncMarker) ∧
      (stderrTruncMarker.data <:+
        ((safe_execute max_output_size command working_dir timeout environment elapsed now
          (.completed rc out err)).1.stderr).data)) := by
  constructor
  · intro hout
    have hs : (safe_execute max_output_size command working_dir timeout environment elapsed
        now (.completed rc out err)).1.stdout =
        pyTake max_output_size out ++ stdoutTruncMarker := by
      show limitOutput max_output_size stdoutTruncMarker out = _
      unfold limitOutput
      rw [if_pos hout]
    refine ⟨hs, ?_, ?_⟩
    · rw [hs]
      show (pyTake max_output_size out ++ stdoutTruncMarker).data.length = _
      rw [strData_append]
      show (out.data.take max_output_size ++ stdoutTruncMarker.data).length = _
      rw [List.length_append, List.length_take]
      have hmin : min max_output_size out.data.length = max_output_size :=
        Nat.min_eq_left (Nat.le_of_lt hout)
      rw [hmin]
      rfl
    · rw [hs, strData_append]
      exact ⟨(pyTake max_output_size out).data, rfl⟩
  · intro herr
    have he : (safe_execute max_output_size command working_dir timeout environment elapsed
        now (.completed rc out err)).1.stderr =
        pyTake max_output_size err ++ stderrTruncMarker := by
      show limitOutput max_output_size stderrTruncMarker err = _
      unfold limitOutput
      rw [if_pos herr]
    refine ⟨he, ?_, ?_⟩
    · rw [he]
      show (pyTake max_output_size err ++ stderrTruncMarker).data.length = _
      rw [strData_append]
      show (err.data.take max_output_size ++ stderrTruncMarker.data).length = _
      rw [List.length_append, List.length_take]
      have hmin : min max_output_size err.data.length = max_output_size :=
        Nat.min_eq_left (Nat.le_of_lt herr)
      rw [hmin]
      rfl
    · rw [he, strData_append]
      exact ⟨(pyTake max_output_size err).data, rfl⟩

/-- C6 witness: the per-stream cap behaviour at concrete mixed
executions — one with only stdout oversized (stderr empty), one with
only stderr oversized (stdout empty) — discharging each hypothesis
independently of the other stream. -/
theorem C6_output_caps_with_actual_markers_witness :
    (max_output_size < pyLen bigOut) ∧ (max_output_size < pyLen bigErr) ∧
    (((safe_execute max_output_size [] ("") 30 [] 0 0
        (.completed 0 bigOut (""))).1.stdout =
      pyTake max_output_size bigOut ++ stdoutTruncMarker) ∧
     (pyLen (safe_execute max_output_size [] ("") 30 [] 0 0
        (.completed 0 bigOut (""))).1.stdout =
      max_output_size + pyLen stdoutTruncMarker) ∧
     (stdoutTruncMarker.data <:+
       ((safe_execute max_output_size [] ("") 30 [] 0 0
        (.completed 0 bigOut (""))).1.stdout).data)) ∧
    (((safe_execute max_output_size [] ("") 30 [] 0 0
        (.completed 0 ("") bigErr)).1.stderr =
      pyTake max_output_size bigErr ++ stderrTruncMarker) ∧
     (pyLen (safe_execute max_output_size [] ("") 30 [] 0 0
        (.completed 0 ("") bigErr)).1.stderr =
      max_output_size + pyLen stderrTruncMarker) ∧
     (stderrTruncMarker.data <:+
       ((safe_execute max_output_size [] ("") 30 [] 0 0
        (.completed 0 ("") bigErr)).1.stderr).data)) :=
  have h1 : max_output_size < pyLen bigOut := by
    show max_output_size < (List.replicate (max_output_size + 1) 'a').length
    rw [List.length_replicate]
    omega
  have h2 : max_output_size < pyLen bigErr := by
    show max_output_size < (List.replicate (max_output_size + 2) 'b').length
    rw [List.length_replicate]
    omega
  ⟨h1, h2,
   (C6_output_caps_with_actual_markers [] ("") 30 [] 0 0 0 bigOut ("")).1 h1,
   (C6_output_caps_with_actual_markers [] ("") 30 [] 0 0 0 ("") bigErr).2 h2⟩

/-- Stdout field of a completed safe_execute run, as an equation usable
for rewriting. -/
theorem safe_execute_stdout_eq (command : List String) (working_dir : String)
    (timeout : Nat) (environment : List (String × String)) (elapsed now : Nat)
    (rc : Int) (out err : String) :
    (safe_execute max_output_size command working_dir timeout environment elapsed now
      (.completed rc out err)).1.stdout =
      limitOutput max_output_size stdoutTruncMarker out := rfl

/-- C6 counterexample: a capped stdout does not end in the marker the
claim states — the dots-and-bracket marker without spaces — because the
code appends a different marker text. -/
theorem C6_counterexample :
    ¬ (("...[truncated]").data <:+
      ((safe_execute max_output_size [] ("") 30 [] 0 0
        (.completed 0 bigOut (""))).1.stdout).data) := by
  have h1 : max_output_size < pyLen bigOut := by
    show max_output_size < (List.replicate (max_output_size + 1) 'a').length
    rw [List.length_replicate]
    omega
  intro h
  rw [safe_execute_stdout_eq] at h
  unfold limitOutput at h
  rw [if_pos h1] at h
  rw [strData_append] at h
  have h2 : (("...[truncated]").data).length ≤ (stdoutTruncMarker.data).length := by
    decide
  have h3 := suffix_shift h h2
  revert h3
  decide

/-- C8: for a concrete cpp request, command resolution yields the single
chained argv list containing a literal two-ampersand token, and
execute_code hands that whole list — chain token included — to a single
exec-style spawn (create_subprocess_exec takes an argv, not a shell
command line), so the token is an ordinary compiler argument and no
separate run step exists; the failing compile comes back as an ordinary
ExecutionResult with success false, the nonzero exit code, and the
compiler diagnostics in stderr, with no distinct build-failed state. -/
theorem C8_cpp_chain_is_exec_argv_not_shell :
    ((execute_code [] [] ("./code_workspace") ("int main()") ("cpp") none none []
        1700000000 1234 2 9 (.completed 1 ("") ("error: compilation failed"))).2.2.1 =
      [EngineAction.fileWrite ("./code_workspace/temp/code_1700000000_1234.cpp")
         ("int main()"),
       EngineAction.spawnExec
         ["g++", "-o", "./code_workspace/temp/code_1700000000_1234",
          "./code_workspace/temp/code_1700000000_1234.cpp", "&&",
          "./code_workspace/temp/code_1700000000_1234"]
         ("./code_workspace/temp"),
       EngineAction.fileDelete ("./code_workspace/temp/code_1700000000_1234.cpp")]) ∧
    (("&&") ∈
      ["g++", "-o", "./code_workspace/temp/code_1700000000_1234",
       "./code_workspace/temp/code_1700000000_1234.cpp", "&&",
       "./code_workspace/temp/code_1700000000_1234"]) ∧
    ((execute_code [] [] ("./code_workspace") ("int main()") ("cpp") none none []
        1700000000 1234 2 9 (.completed 1 ("") ("error: compilation failed"))).1 =
      .returned
        { success := false
          stdout := ""
          stderr := "error: compilation failed"
          exit_code := 1
          execution_time := 2
          command := "g++ -o ./code_workspace/temp/code_1700000000_1234 ./code_workspace/temp/code_1700000000_1234.cpp && ./code_workspace/temp/code_1700000000_1234"
          working_directory := "./code_workspace/temp"
          timestamp := 9
          environment := [] }) := by
  refine ⟨by decide, by decide, by decide⟩

/-- C9 amended: for an unknown session id, execute_in_session raises the
Session not found ValueError, while get_session_info returns normally
with the error dictionary instead of raising. -/
theorem C9_unknown_session_behaviour
    (sessions : List (String × Session)) (session_id code : String)
    (fs : List String) (history : List ExecutionResult) (workspace_dir : String)
    (t r elapsed now : Nat) (outcome : SpawnOutcome)
    (h : sessions.lookup session_id = none) :
    (execute_in_session sessions session_id code fs history workspace_dir
        t r elapsed now outcome =
      .raised (("Session not found: ") ++ session_id)) ∧
    (get_session_info sessions session_id =
      .returned (.errorDict ("Session not found"))) := by
  constructor
  · unfold execute_in_session
    rw [h]
  · unfold get_session_info
    rw [h]

/-- C9 witness: the amended behaviour at a concrete unknown id. -/
theorem C9_unknown_session_behaviour_witness :
    (([] : List (String × Session)).lookup ("ghost") = none) ∧
    ((execute_in_session [] ("ghost") ("x") [] [] ("ws") 1 2 3 4
        (.spawnError ("e")) = .raised (("Session not found: ") ++ ("ghost"))) ∧
     (get_session_info [] ("ghost") =
       .returned (.errorDict ("Session not found")))) :=
  ⟨rfl, C9_unknown_session_behaviour [] ("ghost") ("x") [] [] ("ws") 1 2 3 4
    (.spawnError ("e")) rfl⟩

/-- C9 counterexample: get_session_info on an unknown id does not fail
with any raised error — it returns the error dictionary — refuting the
claim that both session operations fail with SessionNotFound. -/
theorem C9_counterexample :
    (get_session_info [] ("ghost") = .returned (.errorDict ("Session not found"))) ∧
    (∀ msg, get_session_info [] ("ghost") ≠ .raised msg) := by
  refine ⟨rfl, ?_⟩
  intro msg h
  simp [get_session_info] at h
